import Mathlib

/-!
Verification of `monkeytype/config.py` (MonkeyType configuration module).

The module has three parts with decision logic:
* the module-level path resolver computing `LIB_PATHS`,
* `default_code_filter`, the default call-site filtering predicate,
* the `Config` abstract base class and its `DefaultConfig` realization.

Python strings are modelled as Lean `String` (empty string is the false-like
Python string).  `sysconfig.get_path` may report a location or not, so it is
modelled as returning `Option String`.  The `sys.real_prefix` attribute may be
absent entirely (on runtimes outside an old-style virtualenv), which the model
makes explicit, because the source reads it with `getattr(sys, 'real_prefix')`
without a default, raising `AttributeError` when it is absent.
-/

namespace MonkeyType

/-- A Python code object, as far as `default_code_filter` consumes it:
`co_filename` is the source-file path (empty when absent) and `co_name`
stands for the rest of the code object's payload, irrelevant to the filter. -/
structure CodeType where
  co_filename : String
  co_name : String
deriving DecidableEq

/-- Python string truthiness: a string is truthy iff it is non-empty. -/
def pyTruthy (s : String) : Bool := s != ""

/-- Python `s.startswith(p)` for a single string prefix: character-level
prefix test. -/
def str_startswith (s p : String) : Bool := p.data.isPrefixOf s.data

/-- Python `s.startswith(t)` where `t` is a tuple of prefixes: true iff `s`
starts with at least one element of the tuple. -/
def str_startswith_tuple (s : String) (t : List String) : Bool :=
  t.any (fun p => str_startswith s p)

/-- `default_code_filter` (config.py line 83-85), parameterized by the
module-level `LIB_PATHS` tuple:
`bool(code.co_filename and not code.co_filename.startswith(LIB_PATHS))`. -/
def default_code_filter (LIB_PATHS : List String) (code : CodeType) : Bool :=
  pyTruthy code.co_filename && !(str_startswith_tuple code.co_filename LIB_PATHS)

/-! ## Path resolver (config.py lines 73-80) -/

/-- The runtime's `sysconfig` facility: `get_path n` models
`sysconfig.get_path(n)`, and `get_path_stdlib_installed_base b` models
`sysconfig.get_path('stdlib', vars=\x7b'installed_base': b\x7d)`. -/
structure SysConfig where
  get_path : String → Option String
  get_path_stdlib_installed_base : String → Option String

/-- The `sys.real_prefix` attribute: either absent from the `sys` module, or
present with a string value (old-style virtualenv sets it to the base prefix). -/
inductive RealPfxAttr where
  | absent : RealPfxAttr
  | present : String → RealPfxAttr
deriving DecidableEq

/-- The runtime state the module-level code of config.py reads. -/
structure PyEnv where
  sysconfig : SysConfig
  realPfx : RealPfxAttr

/-- `getattr(sys, 'real_prefix')` with no default argument: raises
`AttributeError` when the attribute is absent. -/
def getattrRealPfx : RealPfxAttr → Except String String
  | .absent => .error "AttributeError"
  | .present v => .ok v

/-- Insertion into a Python set modelled as a duplicate-free list. -/
def setInsert {α : Type} [DecidableEq α] (s : List α) (x : α) : List α :=
  if x ∈ s then s else s ++ [x]

/-- A Python set built from a list of elements. -/
def setOfList {α : Type} [DecidableEq α] (l : List α) : List α :=
  l.foldl setInsert []

/-- Module-level computation of the `lib_paths` set (config.py lines 73-79):
`\x7bsysconfig.get_path(n) for n in ['stdlib', 'purelib', 'platlib']\x7d`,
then, when `getattr(sys, 'real_prefix')` succeeds and is truthy, the real
stdlib location is added.  The computation fails with `AttributeError`
when `sys.real_prefix` is absent. -/
def lib_paths (env : PyEnv) : Except String (List (Option String)) := do
  let base := setOfList (["stdlib", "purelib", "platlib"].map env.sysconfig.get_path)
  let venvRealPfx ← getattrRealPfx env.realPfx
  if pyTruthy venvRealPfx then
    return setInsert base (env.sysconfig.get_path_stdlib_installed_base venvRealPfx)
  else
    return base

/-- `LIB_PATHS = tuple(p for p in lib_paths if p is not None)`
(config.py line 80), propagating the possible `AttributeError`. -/
def LIB_PATHS_of (env : PyEnv) : Except String (List String) :=
  (lib_paths env).map (fun s => s.filterMap id)

/-! ## Test environments for concrete evaluation -/

/-- A sysconfig whose three named locations all resolve, as on a standard
CPython install. -/
def sampleSysConfig : SysConfig where
  get_path := fun n =>
    if n = "stdlib" then some "/usr/lib/python3.9"
    else if n = "purelib" then some "/usr/lib/python3.9/site-packages"
    else if n = "platlib" then some "/usr/lib/python3.9/site-packages"
    else none
  get_path_stdlib_installed_base := fun b => some (b ++ "/lib/python3.9")

/-- A runtime where `sys` has no `real_prefix` attribute (any CPython that is
not inside an old-style virtualenv). -/
def envNoRealPfx : PyEnv := ⟨sampleSysConfig, .absent⟩

/-- A runtime where `sys.real_prefix` is present but false-like (empty). -/
def envFalsyRealPfx : PyEnv := ⟨sampleSysConfig, .present ""⟩

/-- A sysconfig where the stdlib location query yields the empty string and
the platlib query yields no result. -/
def emptyPathSysConfig : SysConfig where
  get_path := fun n =>
    if n = "stdlib" then some ""
    else if n = "purelib" then some "/site-packages"
    else if n = "platlib" then none
    else none
  get_path_stdlib_installed_base := fun _ => none

/-- Environment with an empty-string path query result and a false-like
`sys.real_prefix`. -/
def envEmptyPath : PyEnv := ⟨emptyPathSysConfig, .present ""⟩

/-! ## Configuration contract (config.py lines 33-70) and its default
realization (lines 88-108).  Collaborator classes that live outside this
module (`CallTraceStoreLogger`, `SQLiteStore`, `DEFAULT_REWRITER`) are
modelled from the spec, as noted on each. -/

/-- Modelled from the spec: `CallTraceStoreLogger` (monkeytype/db/base.py,
not under src/) is "a logger that buffers/writes records directly into the
result of `trace_store()`"; it is constructed on a store and holds it. -/
structure CallTraceStoreLogger (Store : Type) where
  store : Store

/-- Modelled from the spec: a type rewriter (monkeytype/typing.py, not under
src/) accepts an observed type and produces a normalized type for stubs. -/
structure TypeRewriter where
  rewrite : String → String

/-- Modelled from the spec: `DEFAULT_REWRITER` (monkeytype/typing.py, not
under src/) is the single pre-built default rewriter instance. -/
def DEFAULT_REWRITER : TypeRewriter := ⟨fun t => t⟩

/-- Modelled from the spec: `SQLiteStore` (monkeytype/db/sqlite.py, not under
src/) records the filesystem path backing the store. -/
structure SQLiteStore where
  db_path : String
deriving DecidableEq

/-- Modelled from the spec: `SQLiteStore.make_store(path)` constructs/opens a
store backed by the given path. -/
def SQLiteStore.make_store (path : String) : SQLiteStore := ⟨path⟩

/-- An instantiated configuration object: each accessor of the `Config`
contract, as a method taking the (stateless) receiver. -/
structure ConfigObj (Store Rewriter : Type) where
  type_rewriter : Unit → Rewriter
  trace_store : Unit → Store
  trace_logger : Unit → CallTraceStoreLogger Store
  code_filter : Unit → Option (CodeType → Bool)
  sample_rate : Unit → Option Int

/-- The method table a concrete subclass of `Config` supplies: `none` in a
required slot means the abstract method was not overridden, `none` in an
optional slot means the base class default applies. -/
structure ConfigMethods (Store Rewriter : Type) where
  type_rewriter : Option (Unit → Rewriter)
  trace_store : Option (Unit → Store)
  trace_logger : Option (Unit → CallTraceStoreLogger Store)
  code_filter : Option (Unit → Option (CodeType → Bool))
  sample_rate : Option (Unit → Option Int)

/-- Instantiating a subclass of `Config` (ABCMeta): fails with `TypeError`
when either abstract method (`type_rewriter`, `trace_store`) is missing;
otherwise fills the optional slots with the base-class defaults of
config.py lines 47-70 (`trace_logger` logs to `self.trace_store()`,
`code_filter` and `sample_rate` return `None`). -/
def instantiate {S R : Type} (m : ConfigMethods S R) : Except String (ConfigObj S R) :=
  match m.type_rewriter, m.trace_store with
  | some tr, some ts =>
    .ok { type_rewriter := tr
          trace_store := ts
          trace_logger := m.trace_logger.getD (fun _ => ⟨ts ()⟩)
          code_filter := m.code_filter.getD (fun _ => none)
          sample_rate := m.sample_rate.getD (fun _ => none) }
  | _, _ => .error "TypeError: cannot instantiate abstract class Config"

/-- A bare configuration: implements only the two required accessors and
inherits every default. -/
def bareConfig {S R : Type} (ts : Unit → S) (tr : Unit → R) : ConfigMethods S R :=
  { type_rewriter := some tr
    trace_store := some ts
    trace_logger := none
    code_filter := none
    sample_rate := none }

/-- `DefaultConfig.DB_PATH_VAR` (config.py line 89). -/
def DefaultConfig.DB_PATH_VAR : String := "MT_DB_PATH"

/-- The process environment, `os.environ.get` as a partial map. -/
def Environ : Type := String → Option String

/-- `DefaultConfig.type_rewriter` (config.py lines 91-92): returns the
module-level `DEFAULT_REWRITER` instance. -/
def DefaultConfig.type_rewriter : Unit → TypeRewriter := fun _ => DEFAULT_REWRITER

/-- `DefaultConfig.trace_store` (config.py lines 94-101):
`db_path = os.environ.get(self.DB_PATH_VAR, "monkeytype.sqlite3")`, then
`SQLiteStore.make_store(db_path)`. -/
def DefaultConfig.trace_store (environ : Environ) : Unit → SQLiteStore :=
  fun _ => SQLiteStore.make_store ((environ DefaultConfig.DB_PATH_VAR).getD "monkeytype.sqlite3")

/-- `DefaultConfig.code_filter` (config.py lines 103-105): returns the
module-level `default_code_filter` function (not `None`). -/
def DefaultConfig.code_filter (LIB_PATHS : List String) : Unit → Option (CodeType → Bool) :=
  fun _ => some (default_code_filter LIB_PATHS)

/-- The method table of class `DefaultConfig` (config.py lines 88-105):
overrides `type_rewriter`, `trace_store` and `code_filter`; inherits
`trace_logger` and `sample_rate`. -/
def DefaultConfigMethods (LIB_PATHS : List String) (environ : Environ) :
    ConfigMethods SQLiteStore TypeRewriter :=
  { type_rewriter := some DefaultConfig.type_rewriter
    trace_store := some (DefaultConfig.trace_store environ)
    trace_logger := none
    code_filter := some (DefaultConfig.code_filter LIB_PATHS)
    sample_rate := none }

/-- `DEFAULT_CONFIG = DefaultConfig()` (config.py line 108): the instantiated
default configuration object. -/
def DEFAULT_CONFIG (LIB_PATHS : List String) (environ : Environ) :
    ConfigObj SQLiteStore TypeRewriter :=
  { type_rewriter := DefaultConfig.type_rewriter
    trace_store := DefaultConfig.trace_store environ
    trace_logger := fun _ => ⟨DefaultConfig.trace_store environ ()⟩
    code_filter := DefaultConfig.code_filter LIB_PATHS
    sample_rate := fun _ => none }

/-- Sanity: `DEFAULT_CONFIG` is exactly what instantiating the
`DefaultConfig` method table through the abstract-class machinery yields. -/
theorem DEFAULT_CONFIG_from_class (lp : List String) (environ : Environ) :
    instantiate (DefaultConfigMethods lp environ) = .ok (DEFAULT_CONFIG lp environ) := rfl

end MonkeyType

namespace MonkeyType

/-- C1: `default_code_filter` returns true iff the code object's
`co_filename` is non-empty and starts with no entry of `LIB_PATHS`;
in particular it returns false whenever `co_filename` is empty. -/
theorem default_code_filter_iff (lp : List String) (code : CodeType) :
    (default_code_filter lp code = true ↔
      code.co_filename ≠ "" ∧ ∀ p ∈ lp, str_startswith code.co_filename p = false) ∧
    (code.co_filename = "" → default_code_filter lp code = false) := by
  constructor
  · simp [default_code_filter, pyTruthy, str_startswith_tuple, List.any_eq_true,
      bne_iff_ne]
  · intro h
    simp [default_code_filter, pyTruthy, h]

/-- C2 (failing input): on a runtime whose `sys` module lacks the
`real_prefix` attribute, the module-level path resolution does not skip the
real-prefix entry and complete — it raises `AttributeError`, because
line 75 reads `getattr(sys, 'real_prefix')` with no default.  With the
attribute present but false-like the entry is skipped, as the spec says. -/
theorem lib_paths_absent_attr_error :
    LIB_PATHS_of envNoRealPfx = .error "AttributeError" ∧
    LIB_PATHS_of envFalsyRealPfx =
      .ok ["/usr/lib/python3.9", "/usr/lib/python3.9/site-packages"] := by
  constructor <;> rfl

/-- C3 (counterexample): with a runtime whose stdlib path query returns the
empty string (and `platlib` absent), the computed `LIB_PATHS` keeps the
empty string: line 80 filters only `p is not None`, not empty strings. -/
theorem LIB_PATHS_keeps_empty_string :
    LIB_PATHS_of envEmptyPath = .ok ["", "/site-packages"] ∧
    "" ∈ ["", "/site-packages"] := by
  constructor
  · rfl
  · simp

/-- C3 (amended): `LIB_PATHS` drops exactly the absent (`None`) query
results: a string is an entry of `LIB_PATHS` iff the `lib_paths` set holds
it as a present value.  In particular no absent entry survives, but an
empty-string result is retained. -/
theorem LIB_PATHS_drops_none (env : PyEnv) (s : List (Option String))
    (l : List String) (p : String)
    (hs : lib_paths env = .ok s) (hl : LIB_PATHS_of env = .ok l) :
    p ∈ l ↔ some p ∈ s := by
  have : LIB_PATHS_of env = .ok (s.filterMap id) := by
    unfold LIB_PATHS_of
    rw [hs]
    rfl
  rw [hl] at this
  cases this
  simp [List.mem_filterMap]

/-- C3 witness: the amended theorem applied to the concrete environment with
an empty-string stdlib result, at the entry `""`. -/
theorem LIB_PATHS_drops_none_witness :
    "" ∈ ["", "/site-packages"] ↔
      some "" ∈ [some "", some "/site-packages", none] :=
  LIB_PATHS_drops_none envEmptyPath [some "", some "/site-packages", none]
    ["", "/site-packages"] "" rfl rfl

/-- C4: the store `DefaultConfig.trace_store()` opens is backed by the value
of the `MT_DB_PATH` environment variable when set, and by the literal path
`monkeytype.sqlite3` when unset. -/
theorem trace_store_env_var (environ : Environ) :
    (DefaultConfig.trace_store environ ()).db_path =
      match environ "MT_DB_PATH" with
      | some v => v
      | none => "monkeytype.sqlite3" := by
  cases h : environ "MT_DB_PATH" <;>
    simp [DefaultConfig.trace_store, DefaultConfig.DB_PATH_VAR,
      SQLiteStore.make_store, h]

/-- C5: a bare configuration supplying only the two required accessors
instantiates without error, its `trace_logger()` is a store-backed logger
built on the result of its `trace_store()`, its `code_filter()` is `None`
and its `sample_rate()` is `None`. -/
theorem bare_config_defaults {S R : Type} (ts : Unit → S) (tr : Unit → R) :
    instantiate (bareConfig ts tr) =
      .ok { type_rewriter := tr
            trace_store := ts
            trace_logger := fun _ => ⟨ts ()⟩
            code_filter := fun _ => none
            sample_rate := fun _ => none } := rfl

/-- C6: `DefaultConfig.code_filter()` returns the module-level
`default_code_filter` itself — not `None` — so the returned predicate has
the same truth table as `default_code_filter`. -/
theorem default_config_code_filter (lp : List String) (environ : Environ)
    (code : CodeType) :
    (DEFAULT_CONFIG lp environ).code_filter () = some (default_code_filter lp) ∧
    (DEFAULT_CONFIG lp environ).code_filter () ≠ none ∧
    ((DEFAULT_CONFIG lp environ).code_filter ()).getD (fun _ => true) code =
      default_code_filter lp code := by
  refine ⟨rfl, ?_, rfl⟩
  simp [DEFAULT_CONFIG, DefaultConfig.code_filter]

/-- C7: every call to `DefaultConfig.type_rewriter()` returns the one shared
module-level `DEFAULT_REWRITER` instance: each call yields that constant,
so any two calls yield the same rewriter. -/
theorem type_rewriter_shared (lp : List String) (environ : Environ)
    (u₁ u₂ : Unit) :
    (DEFAULT_CONFIG lp environ).type_rewriter u₁ = DEFAULT_REWRITER ∧
    (DEFAULT_CONFIG lp environ).type_rewriter u₁ =
      (DEFAULT_CONFIG lp environ).type_rewriter u₂ := ⟨rfl, rfl⟩

/-- C8: instantiating a configuration whose method table omits either
required accessor (`trace_store` or `type_rewriter`) fails with the
unimplemented-contract `TypeError`, returned as-is with no recovery. -/
theorem instantiate_missing_required {S R : Type} (m : ConfigMethods S R)
    (h : m.trace_store = none ∨ m.type_rewriter = none) :
    instantiate m = .error "TypeError: cannot instantiate abstract class Config" := by
  obtain ⟨tr, ts, tl, cf, sr⟩ := m
  rcases h with h | h
  · simp only at h
    subst h
    cases tr <;> rfl
  · simp only at h
    subst h
    rfl

/-- C8 witness: a method table supplying only `type_rewriter` fails to
instantiate. -/
theorem instantiate_missing_required_witness :
    instantiate { type_rewriter := some (fun _ => DEFAULT_REWRITER)
                  trace_store := (none : Option (Unit → SQLiteStore))
                  trace_logger := none
                  code_filter := none
                  sample_rate := none } =
      .error "TypeError: cannot instantiate abstract class Config" :=
  instantiate_missing_required _ (Or.inl rfl)

/-- C9: `default_code_filter` is deterministic in its input: two code
objects with the same `co_filename` (all the filter reads) get the same
boolean under the same `LIB_PATHS`; the embedding is a pure function, so
no state is touched. -/
theorem default_code_filter_deterministic (lp : List String)
    (c₁ c₂ : CodeType) (h : c₁.co_filename = c₂.co_filename) :
    default_code_filter lp c₁ = default_code_filter lp c₂ := by
  simp [default_code_filter, str_startswith_tuple, pyTruthy, h]

/-- C9 witness: two distinct code objects sharing a filename evaluate
equally. -/
theorem default_code_filter_deterministic_witness :
    default_code_filter ["/usr/lib/python3.9"] ⟨"/home/user/app.py", "f"⟩ =
      default_code_filter ["/usr/lib/python3.9"] ⟨"/home/user/app.py", "g"⟩ :=
  default_code_filter_deterministic ["/usr/lib/python3.9"]
    ⟨"/home/user/app.py", "f"⟩ ⟨"/home/user/app.py", "g"⟩ rfl

/-- C10: the library test is plain string-prefix matching: whenever some
entry `p` of `LIB_PATHS` is a character-string prefix of `co_filename`
(including a sibling directory such as `p ++ "-extra/f.py"`), the filter
returns false, even though such a file is not inside the directory `p`. -/
theorem default_code_filter_string_match (lp : List String) (p : String)
    (hp : p ∈ lp) (rest nm : String) :
    default_code_filter lp ⟨p ++ rest, nm⟩ = false := by
  have hstart : str_startswith (p ++ rest) p = true := by
    simp only [str_startswith, String.data_append]
    exact List.isPrefixOf_iff_prefix.mpr (List.prefix_append _ _)
  have hany : str_startswith_tuple (p ++ rest) lp = true :=
    List.any_eq_true.mpr ⟨p, hp, hstart⟩
  simp [default_code_filter, hany]

/-- C10 witness: with `/usr/lib/python3.9` in `LIB_PATHS`, a file in the
sibling directory `/usr/lib/python3.9-extra/` is excluded. -/
theorem default_code_filter_string_match_witness :
    default_code_filter ["/usr/lib/python3.9"]
      ⟨"/usr/lib/python3.9" ++ "-extra/f.py", "f"⟩ = false :=
  default_code_filter_string_match ["/usr/lib/python3.9"]
    "/usr/lib/python3.9" (by simp) "-extra/f.py" "f"

end MonkeyType
